import Mathlib

/-!
Shallow embedding of the Tension Field audio engine (src/dsp.rs, src/clock.rs,
src/gesture.rs, src/mod_matrix.rs, src/params.rs).

Modelling conventions:
- `f32` / `f64` values are modelled as real numbers (`ℝ`).
- `u32` PRNG state is modelled as `ℕ` reduced modulo `2 ^ 32` where the source
  performs wrapping arithmetic.
- Ring buffers (`Vec<f32>`) are modelled as `List ℝ`, in-place writes as
  `List.set`.
- Stateful methods that mutate `&mut self` become functions returning the
  produced value together with the updated state.
- Rust `x.clamp(lo, hi)` (for `lo ≤ hi`) is `clampR x lo hi = min (max x lo) hi`.
- Rust `f32::fract` is `x - trunc x` with truncation toward zero (`rustFract`);
  `f32::signum` returns `1` on `+0.0`, hence `rustSignum 0 = 1`;
  `f32::round` rounds half away from zero (`rustRound`).
-/

namespace TensionField

/-- Rust `clamp` for reals: `min (max x lo) hi`, which for `lo ≤ hi` agrees with
`f32::clamp`. -/
noncomputable def clampR (x lo hi : ℝ) : ℝ := min (max x lo) hi

/-- Rust truncation toward zero of a real. -/
noncomputable def rustTrunc (x : ℝ) : ℝ := if x < 0 then (⌈x⌉ : ℝ) else (⌊x⌋ : ℝ)

/-- Rust `f32::fract`: `x - x.trunc()`. -/
noncomputable def rustFract (x : ℝ) : ℝ := x - rustTrunc x

/-- Rust `f32::signum` restricted to non-NaN values: `-1` for negatives,
`1` otherwise (including `+0.0`). -/
noncomputable def rustSignum (x : ℝ) : ℝ := if x < 0 then -1 else 1

/-- Rust `f32::round` as an integer: round half away from zero. -/
noncomputable def rustRoundInt (x : ℝ) : ℤ := if x < 0 then -⌊-x + 1 / 2⌋ else ⌊x + 1 / 2⌋

/-- Rust `f32::round` as a real. -/
noncomputable def rustRound (x : ℝ) : ℝ := (rustRoundInt x : ℝ)

/-- Rust `2 * π` (`std::f32::consts::TAU`). -/
noncomputable def tau : ℝ := 2 * Real.pi

/-- One step of the xorshift32 generator used by `next_signed`
(src/dsp.rs lines 496-503, src/gesture.rs lines 211-218); `u32` state is a
natural number below `2 ^ 32`. -/
def xorshift32 (state : ℕ) : ℕ :=
  let x1 := state ^^^ ((state <<< 13) % 4294967296)
  let x2 := x1 ^^^ (x1 >>> 17)
  x2 ^^^ ((x2 <<< 5) % 4294967296)

/-- Source `next_signed`: advance the xorshift32 state and emit a value in
`[-1, 1]` as `(x / u32::MAX) * 2 - 1`. Returns `(value, new_state)`. -/
noncomputable def next_signed (state : ℕ) : ℝ × ℕ :=
  let x := xorshift32 state
  (((x : ℝ) / 4294967295) * 2 - 1, x)

/-- Source `signed_noise` (src/mod_matrix.rs lines 185-188): LCG step with
wrapping arithmetic, emitting `((state >> 8) / 2 ^ 24) * 2 - 1`. -/
noncomputable def signed_noise (state : ℕ) : ℝ × ℕ :=
  let s := (state * 1664525 + 1013904223) % 4294967296
  (((s >>> 8 : ℕ) : ℝ) / 16777216 * 2 - 1, s)

/-- Source `lerp` (src/dsp.rs lines 545-547). -/
noncomputable def lerp (a b t : ℝ) : ℝ := a + (b - a) * t

/-- Source `db_to_gain` (src/dsp.rs lines 549-551): `10 ^ (db * 0.05)`. -/
noncomputable def db_to_gain (db : ℝ) : ℝ := (10 : ℝ) ^ (db * 0.05)

/-- Source `crush` (src/dsp.rs lines 553-555): quantize to steps of `1 / 128`. -/
noncomputable def crush (sample : ℝ) : ℝ := rustRound (sample * 128) / 128

/-- Source `soft_clip` (src/dsp.rs lines 557-559). -/
noncomputable def soft_clip (input : ℝ) : ℝ := input / (1 + |input| * 0.6)

/-- Source `meter_norm` (src/dsp.rs lines 561-563). -/
noncomputable def meter_norm (value : ℝ) : ℝ := clampR (value / (1 + value)) 0 1

/-- Source `wrap_position` (src/dsp.rs lines 505-514). The source runs
`while wrapped < 0 do wrapped += length` then `while wrapped >= length do
wrapped -= length`; for `0 < length` the first loop executes `⌈-p / L⌉` times
and the second `⌊p / L⌋` times, which is the closed form used here. -/
noncomputable def wrap_position (position length : ℝ) : ℝ :=
  if position < 0 then position + length * ⌈-position / length⌉
  else if length ≤ position then position - length * ⌊position / length⌋
  else position

/-- Source `wrap_delta` (src/dsp.rs lines 516-525). The source runs
`while wrapped > length * 0.5 do wrapped -= length` then
`while wrapped < -(length * 0.5) do wrapped += length`; for `0 < length` the
loops execute `⌈(d - L/2) / L⌉` resp. `⌈(-L/2 - d) / L⌉` times, giving this
closed form. -/
noncomputable def wrap_delta (delta length : ℝ) : ℝ :=
  if length * 0.5 < delta then delta - length * ⌈(delta - length * 0.5) / length⌉
  else if delta < -(length * 0.5) then delta + length * ⌈(-(length * 0.5) - delta) / length⌉
  else delta

/-- Wrapped buffer index used by `read_cubic`: Rust `i.rem_euclid(len) as usize`. -/
def ringIndex (i len : ℤ) : ℕ := (i % len).toNat

/-- Source `read_cubic` (src/dsp.rs lines 527-543): 4-point cubic interpolation
with wrapped neighbor indices. -/
noncomputable def read_cubic (buffer : List ℝ) (position : ℝ) : ℝ :=
  let len : ℤ := buffer.length
  let base : ℤ := ⌊position⌋
  let frac := position - (base : ℝ)
  let x0 := buffer.getD (ringIndex (base - 1) len) 0
  let x1 := buffer.getD (ringIndex base len) 0
  let x2 := buffer.getD (ringIndex (base + 1) len) 0
  let x3 := buffer.getD (ringIndex (base + 2) len) 0
  let a := -0.5 * x0 + 1.5 * x1 - 1.5 * x2 + 0.5 * x3
  let b := x0 - 2.5 * x1 + 2 * x2 - 0.5 * x3
  let c := -0.5 * x0 + 0.5 * x2
  let d := x1
  ((a * frac + b) * frac + c) * frac + d

/-- Source enum `PullShape` (src/params.rs). -/
inductive PullShape where
  | Linear
  | Rubber
  | Ratchet
  | Wave
  | Pulse
deriving DecidableEq

/-- Source enum `TimeMode` (src/params.rs). -/
inductive TimeMode where
  | FreeHz
  | SyncDivision
deriving DecidableEq

/-- Source enum `PullDivision` (src/params.rs). -/
inductive PullDivision where
  | Div1_16
  | Div1_8T
  | Div1_8
  | Div1_4T
  | Div1_4
  | Div1_2
  | Div1Bar
  | Div2Bar
deriving DecidableEq

/-- Source `PullDivision::beats_per_cycle` (src/params.rs lines 161-172). -/
noncomputable def PullDivision.beats_per_cycle : PullDivision → ℝ
  | .Div1_16 => 0.25
  | .Div1_8T => 1 / 3
  | .Div1_8 => 0.5
  | .Div1_4T => 2 / 3
  | .Div1_4 => 1
  | .Div1_2 => 2
  | .Div1Bar => 4
  | .Div2Bar => 8

/-- Source enum `PullQuantize` (src/params.rs). -/
inductive PullQuantize where
  | None
  | Div1_16
  | Div1_8
  | Div1_4
deriving DecidableEq

/-- Source `PullQuantize::beats` (src/params.rs lines 235-242). -/
noncomputable def PullQuantize.beats : PullQuantize → Option ℝ
  | .None => none
  | .Div1_16 => some 0.25
  | .Div1_8 => some 0.5
  | .Div1_4 => some 1

/-- Source enum `WarpColor` (src/params.rs). -/
inductive WarpColor where
  | Neutral
  | DarkDrag
  | BrightShear
deriving DecidableEq

/-- Source enum `CharacterMode` (src/params.rs). -/
inductive CharacterMode where
  | Clean
  | Dirty
  | Crush
deriving DecidableEq

/-- Source enum `ModSourceShape` (src/params.rs). -/
inductive ModSourceShape where
  | Sine
  | Triangle
  | RandomWalk
  | Envelope
deriving DecidableEq

/-- Source enum `ModRateMode` (src/params.rs). -/
inductive ModRateMode where
  | FreeHz
  | SyncDivision
deriving DecidableEq

/-- Source struct `ModSourceSettings` (src/params.rs lines 451-463). -/
structure ModSourceSettings where
  shape : ModSourceShape
  rate_mode : ModRateMode
  rate_hz : ℝ
  rate_division : PullDivision
  depth : ℝ

/-- Source struct `ModSettings` (src/params.rs lines 466-476); the 2×6 route
depth matrix is a function `Fin 2 → Fin 6 → ℝ`. -/
structure ModSettings where
  run : Bool
  source_a : ModSourceSettings
  source_b : ModSourceSettings
  route_depths : Fin 2 → Fin 6 → ℝ

/-- Source struct `TensionFieldSettings` (src/params.rs lines 479-536). -/
structure TensionFieldSettings where
  tension : ℝ
  tension_bias : ℝ
  time_mode : TimeMode
  pull_rate_hz : ℝ
  pull_division : PullDivision
  swing : ℝ
  pull_shape : PullShape
  pull_trigger : Bool
  pull_latch : Bool
  pull_quantize : PullQuantize
  rebound : ℝ
  release_snap : ℝ
  pull_direction : ℝ
  elasticity : ℝ
  grain_continuity : ℝ
  pitch_coupling : ℝ
  warp_color : WarpColor
  warp_motion : ℝ
  width : ℝ
  diffusion : ℝ
  air_damping : ℝ
  air_compensation : Bool
  character : CharacterMode
  feedback : ℝ
  ducking : ℝ
  output_trim_db : ℝ
  energy_ceiling : ℝ
  modulation : ModSettings

/-- Source struct `TransportState` (src/clock.rs lines 7-14). -/
structure TransportState where
  tempo_bpm : ℝ
  is_playing : Bool
  song_pos_beats : Option ℝ

/-- Source struct `ClockFrame` (src/clock.rs lines 28-33). -/
structure ClockFrame where
  beat_position : ℝ
  is_playing : Bool

/-- Source struct `TransportClock` (src/clock.rs lines 45-48). -/
structure TransportClock where
  sample_rate : ℝ
  fallback_beat_position : ℝ

/-- Source `TransportClock::new` (src/clock.rs lines 52-57). -/
noncomputable def TransportClock.new (sample_rate : ℝ) : TransportClock :=
  ⟨max sample_rate 1, 0⟩

/-- Source `TransportClock::tick` (src/clock.rs lines 60-78): returns the frame
for the current sample together with the advanced clock. -/
noncomputable def TransportClock.tick (c : TransportClock) (transport : TransportState) :
    ClockFrame × TransportClock :=
  let tempo_bpm := clampR transport.tempo_bpm 20 300
  let beat_increment := tempo_bpm / (c.sample_rate * 60)
  let beat_position := transport.song_pos_beats.getD c.fallback_beat_position
  let fallback := if transport.is_playing then beat_position + beat_increment else beat_position
  (⟨beat_position, transport.is_playing⟩, ⟨c.sample_rate, fallback⟩)

/-- Source `apply_swing` (src/clock.rs lines 82-90). -/
noncomputable def apply_swing (phase swing : ℝ) : ℝ :=
  let p := rustFract phase
  let split := clampR (0.5 + clampR swing 0 1 * 0.24) 0.1 0.9
  if p < split then p / split * 0.5
  else 0.5 + (p - split) / (1 - split) * 0.5

/-- Source `ClockFrame::phase_for_division` (src/clock.rs lines 37-41). -/
noncomputable def ClockFrame.phase_for_division (c : ClockFrame) (division : PullDivision)
    (swing : ℝ) : ℝ :=
  let beats := max division.beats_per_cycle 0.0001
  apply_swing (rustFract (c.beat_position / beats)) swing

/-- Source struct `GestureInput` (src/gesture.rs lines 10-35). -/
structure GestureInput where
  tension : ℝ
  time_mode : TimeMode
  pull_rate_hz : ℝ
  pull_division : PullDivision
  swing : ℝ
  pull_shape : PullShape
  pull_trigger : Bool
  pull_latch : Bool
  pull_quantize : PullQuantize
  rebound : ℝ
  pull_direction : ℝ
  elasticity : ℝ

/-- Source struct `GestureFrame` (src/gesture.rs lines 39-48). -/
structure GestureFrame where
  delay_samples : ℝ
  velocity : ℝ
  tension_drive : ℝ
  drift_phase_inc : ℝ

/-- Source struct `GestureEngine` (src/gesture.rs lines 52-63). -/
structure GestureEngine where
  free_phase : ℝ
  pull_env : ℝ
  random_walk : ℝ
  previous_direction : ℝ
  was_pull_pressed : Bool
  latched_active : Bool
  pending_quantized_trigger : Bool
  one_shot_samples : ℕ
  previous_beat_position : Option ℝ
  rng_state : ℕ

/-- Default `GestureEngine` state (all fields zero / false / none). -/
noncomputable def GestureEngine.default : GestureEngine :=
  ⟨0, 0, 0, 0, false, false, false, 0, none, 0⟩

/-- Source `GestureEngine::start_pull` (src/gesture.rs lines 170-172): the
one-shot window length `(sample_rate * 0.11).round() as usize` (the `usize`
cast saturates negatives to zero). -/
noncomputable def start_pull_samples (sample_rate : ℝ) : ℕ :=
  (rustRoundInt (sample_rate * 0.11)).toNat

/-- Source `GestureEngine::crossed_quantize_boundary` (src/gesture.rs
lines 174-179). -/
noncomputable def crossed_quantize_boundary (previous_beat_position : Option ℝ)
    (beat_position grid_beats : ℝ) : Prop :=
  let previous := previous_beat_position.getD beat_position
  ⌊previous / grid_beats⌋ < ⌊beat_position / grid_beats⌋

noncomputable instance (p : Option ℝ) (b g : ℝ) :
    Decidable (crossed_quantize_boundary p b g) := by
  unfold crossed_quantize_boundary
  exact inferInstance

/-- Source `evaluate_shape` (src/gesture.rs lines 182-209). -/
noncomputable def evaluate_shape (shape : PullShape) (phase0 : ℝ) : ℝ :=
  let phase := rustFract phase0
  match shape with
  | .Linear => phase * 2 - 1
  | .Rubber =>
      let s := Real.sin (phase * tau)
      rustSignum s * |s| ^ (0.6 : ℝ)
  | .Ratchet =>
      let steps : ℝ := 6
      let stepped := ((⌊phase * steps⌋ : ℝ) / (steps - 1)) * 2 - 1
      let softener := Real.sin (phase * tau) * 0.18
      clampR (stepped * 0.86 + softener) (-1) 1
  | .Wave => Real.sin (phase * tau)
  | .Pulse =>
      if phase < 0.2 then 1
      else if phase < 0.45 then -0.2
      else if phase < 0.65 then 0.6
      else -1

/-- Source `GestureEngine::next` (src/gesture.rs lines 67-168): produce one
gesture frame and the updated engine state. -/
noncomputable def GestureEngine.next (g : GestureEngine) (input : GestureInput)
    (sample_rate : ℝ) (clock : ClockFrame) : GestureFrame × GestureEngine :=
  let rng0 := if g.rng_state = 0 then 2654435769 else g.rng_state
  let rising_edge := input.pull_trigger && !g.was_pull_pressed
  let was_pull_pressed := input.pull_trigger
  let latched0 := if !input.pull_latch then false else g.latched_active
  let latched1 := if rising_edge && input.pull_latch then true else latched0
  let after_edge : ℕ × Bool :=
    if rising_edge then
      if input.pull_quantize.beats.isNone || !clock.is_playing then
        (start_pull_samples sample_rate, g.pending_quantized_trigger)
      else (g.one_shot_samples, true)
    else (g.one_shot_samples, g.pending_quantized_trigger)
  let one_shot1 := after_edge.1
  let pending1 := after_edge.2
  let after_pending : ℕ × Bool :=
    if pending1 then
      match input.pull_quantize.beats with
      | some grid_beats =>
          if crossed_quantize_boundary g.previous_beat_position clock.beat_position grid_beats
          then (start_pull_samples sample_rate, false)
          else (one_shot1, pending1)
      | none => (start_pull_samples sample_rate, false)
    else (one_shot1, pending1)
  let one_shot2 := after_pending.1
  let pending2 := after_pending.2
  let phase_pair : ℝ × ℝ :=
    match input.time_mode with
    | .FreeHz =>
        let increment := clampR (input.pull_rate_hz / max sample_rate 1) 0.00001 0.25
        let p := rustFract (g.free_phase + increment)
        (p, p)
    | .SyncDivision => (clock.phase_for_division input.pull_division input.swing, g.free_phase)
  let phase := phase_pair.1
  let free_phase := phase_pair.2
  let envelope_target : ℝ :=
    if input.pull_latch then (if latched1 then 1 else 0)
    else if input.pull_trigger then 1 else 0
  let one_shot_active := 0 < one_shot2
  let one_shot3 := one_shot2 - 1
  let target := max envelope_target (if one_shot_active then 1 else 0)
  let attack := 0.006 + input.elasticity * 0.028
  let release := 0.0009 + input.rebound * 0.028
  let smoothing := if g.pull_env < target then attack else release
  let pull_env := g.pull_env + (target - g.pull_env) * smoothing
  let walk_amount := 0.0012 + input.elasticity * 0.005
  let noise := next_signed rng0
  let random_walk := clampR (g.random_walk + noise.1 * walk_amount) (-1) 1
  let shape_value := evaluate_shape input.pull_shape phase
  let motion := shape_value * (0.3 + pull_env * 0.7) + random_walk * (0.04 + input.elasticity * 0.1)
  let directional := clampR (motion * 0.7 + input.pull_direction * 0.65) (-1) 1
  let velocity := directional - g.previous_direction
  let tension_drive := clampR (input.tension * (0.2 + |directional| * 0.8)) 0 1
  let center_delay := sample_rate * (0.05 + input.tension * 0.2)
  let delay_swing := sample_rate * (0.004 + input.elasticity * 0.075)
  let delay_samples := max (center_delay + directional * delay_swing) 12
  let drift_phase_inc := clampR (0.0002 + |velocity| * 0.018 + tension_drive * 0.008) 0.0001 0.08
  (⟨delay_samples, velocity, tension_drive, drift_phase_inc⟩,
   ⟨free_phase, pull_env, random_walk, directional, was_pull_pressed, latched1, pending2,
    one_shot3, some clock.beat_position, noise.2⟩)

/-- Source struct `ModSourceState` (src/mod_matrix.rs lines 12-17). -/
structure ModSourceState where
  phase : ℝ
  previous_sync_phase : ℝ
  walk_state : ℝ
  env_state : ℝ

/-- Source `ModSourceState::default` (all zero). -/
noncomputable def ModSourceState.default : ModSourceState := ⟨0, 0, 0, 0⟩

/-- Source struct `ModMatrix` (src/mod_matrix.rs lines 31-36); the six smoothed
destination values are a function `Fin 6 → ℝ`. -/
structure ModMatrix where
  source_a : ModSourceState
  source_b : ModSourceState
  smoothed : Fin 6 → ℝ
  noise_state : ℕ

/-- Source `ModMatrix::default` (src/mod_matrix.rs lines 38-47); the seed is
`0xA5A5_9151`. -/
noncomputable def ModMatrix.default : ModMatrix :=
  ⟨ModSourceState.default, ModSourceState.default, fun _ => 0, 2779091281⟩

/-- Source `triangle` (src/mod_matrix.rs lines 176-183). -/
noncomputable def triangle (phase : ℝ) : ℝ :=
  let p := rustFract phase
  if p < 0.5 then p * 4 - 1 else 3 - p * 4

/-- Source `destination_curve` (src/mod_matrix.rs lines 99-106). -/
noncomputable def destination_curve (index : Fin 6) (value : ℝ) : ℝ :=
  let clamped := clampR value (-1) 1
  if index.val = 0 ∨ index.val = 4 ∨ index.val = 5 then
    rustSignum clamped * |clamped| ^ (0.75 : ℝ)
  else clamped

/-- Source `destination_smoothing` (src/mod_matrix.rs lines 108-118). -/
noncomputable def destination_smoothing (index : Fin 6) : ℝ :=
  if index.val = 0 then 0.07
  else if index.val = 1 then 0.06
  else if index.val = 2 then 0.05
  else if index.val = 3 then 0.05
  else if index.val = 4 then 0.08
  else if index.val = 5 then 0.09
  else 0.05

/-- Source `source_value` (src/mod_matrix.rs lines 120-174): returns the source
output together with the updated source state and noise state. -/
noncomputable def source_value (settings : ModSourceSettings) (state : ModSourceState)
    (clock : ClockFrame) (input_envelope sample_rate : ℝ) (noise_state : ℕ) :
    ℝ × ModSourceState × ℕ :=
  let phase : ℝ :=
    match settings.rate_mode with
    | .FreeHz =>
        let increment := clampR (settings.rate_hz / max sample_rate 1) 0.00001 0.25
        rustFract (state.phase + increment)
    | .SyncDivision => clock.phase_for_division settings.rate_division 0
  let wrapped := phase < state.previous_sync_phase
  let core_walk_env_noise : ℝ × ℝ × ℝ × ℕ :=
    match settings.shape with
    | .Sine => (Real.sin (phase * tau), state.walk_state, state.env_state, noise_state)
    | .Triangle => (triangle phase, state.walk_state, state.env_state, noise_state)
    | .RandomWalk =>
        let walk_scale : ℝ :=
          match settings.rate_mode with
          | .FreeHz => settings.rate_hz * 0.6 / max sample_rate 1
          | .SyncDivision => if wrapped then 1 else 0
        if 0 < walk_scale then
          let n := signed_noise noise_state
          let walk := clampR (state.walk_state + n.1 * (0.8 * walk_scale + 0.05)) (-1) 1
          (walk, walk, state.env_state, n.2)
        else (state.walk_state, state.walk_state, state.env_state, noise_state)
    | .Envelope =>
        let target := clampR input_envelope 0 1
        let env := state.env_state + (target - state.env_state) * 0.06
        (env * 2 - 1, state.walk_state, env, noise_state)
  let core := core_walk_env_noise.1
  let walk := core_walk_env_noise.2.1
  let env := core_walk_env_noise.2.2.1
  let noise := core_walk_env_noise.2.2.2
  (core * clampR settings.depth 0 1, ⟨phase, phase, walk, env⟩, noise)

/-- Source `ModMatrix::next` (src/mod_matrix.rs lines 51-96): one sample of
destination modulation values together with the updated matrix state. -/
noncomputable def ModMatrix.next (m : ModMatrix) (settings : ModSettings) (clock : ClockFrame)
    (input_envelope sample_rate : ℝ) : (Fin 6 → ℝ) × ModMatrix :=
  if !settings.run then
    let smoothed := fun i => m.smoothed i * 0.98
    (smoothed, { m with smoothed := smoothed })
  else
    let a := source_value settings.source_a m.source_a clock input_envelope sample_rate
      m.noise_state
    let b := source_value settings.source_b m.source_b clock input_envelope sample_rate a.2.2
    let destination_raw : Fin 6 → ℝ := fun i =>
      destination_curve i (a.1 * settings.route_depths 0 i + b.1 * settings.route_depths 1 i)
    let smoothed : Fin 6 → ℝ := fun i =>
      let delta := destination_raw i - m.smoothed i
      let filtered_delta := if |delta| < 0.0005 then 0 else delta
      m.smoothed i + filtered_delta * destination_smoothing i
    (smoothed, ⟨a.2.1, b.2.1, smoothed, b.2.2⟩)

/-- Source struct `ElasticControl` (src/dsp.rs lines 231-239). -/
structure ElasticControl where
  delay_samples : ℝ
  velocity : ℝ
  pitch_coupling : ℝ
  grain_amount : ℝ
  elasticity : ℝ
  dirty : Bool

/-- Source struct `ElasticBuffer` (src/dsp.rs lines 241-249). -/
structure ElasticBuffer where
  left : List ℝ
  right : List ℝ
  write_index : ℕ
  read_position : ℝ
  smooth_delay : ℝ
  jitter : ℝ
  rng_state : ℕ

/-- Source `ElasticBuffer::new` (src/dsp.rs lines 252-264); the seed is
`0xA341_316C`, the length `(sample_rate * 2.75).ceil() as usize + 4` (the
`usize` cast saturates negatives to zero). -/
noncomputable def ElasticBuffer.new (sample_rate : ℝ) : ElasticBuffer :=
  let length := (⌈sample_rate * 2.75⌉).toNat + 4
  let initial_delay := sample_rate * 0.18
  ⟨List.replicate length 0, List.replicate length 0, 0, (length : ℝ) - initial_delay,
   initial_delay, 0, 2738958700⟩

/-- Source `ElasticBuffer::process` (src/dsp.rs lines 266-300): write the
inputs, advance the jittered self-correcting read pointer, and read both
channels by cubic interpolation. -/
noncomputable def ElasticBuffer.process (s : ElasticBuffer) (left_in right_in : ℝ)
    (control : ElasticControl) : (ℝ × ℝ) × ElasticBuffer :=
  let len : ℝ := s.left.length
  let left1 := s.left.set s.write_index left_in
  let right1 := s.right.set s.write_index right_in
  let jitter_depth := 4 + control.grain_amount ^ 2 * 110
  let n1 := next_signed s.rng_state
  let jitter0 := clampR (s.jitter + n1.1 * 0.02) (-1) 1
  let jitter_rng : ℝ × ℕ :=
    if control.dirty then
      let n2 := next_signed n1.2
      (jitter0 + n2.1 * 0.25, n2.2)
    else (jitter0, n1.2)
  let target_delay := max (control.delay_samples + jitter_rng.1 * jitter_depth) 8
  let delay_smooth := 0.0018 + control.elasticity * 0.01
  let smooth_delay := s.smooth_delay + (target_delay - s.smooth_delay) * delay_smooth
  let desired_read := wrap_position ((s.write_index : ℝ) - smooth_delay) len
  let error := wrap_delta (desired_read - s.read_position) len
  let speed0 := 1 + error * 0.003 + control.velocity * control.pitch_coupling * 0.48
  let speed_rng : ℝ × ℕ :=
    if control.dirty then
      let n3 := next_signed jitter_rng.2
      (speed0 + n3.1 * 0.03 * control.grain_amount, n3.2)
    else (speed0, jitter_rng.2)
  let speed := clampR speed_rng.1 0.35 1.65
  let read_position := wrap_position (s.read_position + speed) len
  let out_l := read_cubic left1 read_position
  let out_r := read_cubic right1 read_position
  let write_index := (s.write_index + 1) % left1.length
  ((out_l, out_r), ⟨left1, right1, write_index, read_position, smooth_delay, jitter0,
    speed_rng.2⟩)

/-- Well-formedness invariant of the elastic buffer: both ring buffers share a
positive length, the write index is in `[0, length)` and the fractional read
position is in `[0, length)`. -/
def ElasticBuffer.wf (s : ElasticBuffer) : Prop :=
  s.left.length = s.right.length ∧ 0 < s.left.length ∧ s.write_index < s.left.length ∧
  0 ≤ s.read_position ∧ s.read_position < (s.left.length : ℝ)

/-- Source struct `AllpassDelay` (src/dsp.rs lines 441-444). -/
structure AllpassDelay where
  buffer : List ℝ
  index : ℕ

/-- Source `AllpassDelay::new` (src/dsp.rs lines 453-458). -/
noncomputable def AllpassDelay.new (length : ℕ) : AllpassDelay :=
  ⟨List.replicate (max length 2) 0, 0⟩

/-- Source `AllpassDelay::process` (src/dsp.rs lines 460-466). -/
noncomputable def AllpassDelay.process (s : AllpassDelay) (input gain : ℝ) : ℝ × AllpassDelay :=
  let delayed := s.buffer.getD s.index 0
  let output := -gain * input + delayed
  let buffer := s.buffer.set s.index (input + gain * output)
  ⟨output, buffer, (s.index + 1) % buffer.length⟩

/-- Source struct `ShortDelay` (src/dsp.rs lines 469-472). -/
structure ShortDelay where
  buffer : List ℝ
  index : ℕ

/-- Source `ShortDelay::new` (src/dsp.rs lines 480-486). -/
noncomputable def ShortDelay.new (length : ℕ) : ShortDelay :=
  ⟨List.replicate (max length 2) 0, 0⟩

/-- Source `ShortDelay::process` (src/dsp.rs lines 488-493). -/
noncomputable def ShortDelay.process (s : ShortDelay) (input : ℝ) : ℝ × ShortDelay :=
  let delayed := s.buffer.getD s.index 0
  let buffer := s.buffer.set s.index input
  ⟨delayed, buffer, (s.index + 1) % buffer.length⟩

/-- Source struct `PreEmphasis` (src/dsp.rs lines 426-429). -/
structure PreEmphasis where
  low_state : ℝ

/-- Source `PreEmphasis::process` (src/dsp.rs lines 431-439). -/
noncomputable def PreEmphasis.process (s : PreEmphasis) (input tension continuity : ℝ) :
    ℝ × PreEmphasis :=
  let coeff := clampR (0.016 + (1 - tension) * 0.03) 0.006 0.08
  let low_state := s.low_state + (input - s.low_state) * coeff
  let high := input - low_state
  let boost := 0.06 + (1 - continuity) * 0.2
  ⟨input + high * boost, ⟨low_state⟩⟩

/-- Source struct `WarpControl` (src/dsp.rs lines 303-314). -/
structure WarpControl where
  tension : ℝ
  diffusion : ℝ
  elasticity : ℝ
  air_damping : ℝ
  air_compensation : Bool
  drift_phase_inc : ℝ
  warp_motion : ℝ
  color : WarpColor
  character : CharacterMode

/-- Source struct `SpectralWarp` (src/dsp.rs lines 316-321). -/
structure SpectralWarp where
  low_state : ℝ
  allpass_a : AllpassDelay
  allpass_b : AllpassDelay
  drift_phase : ℝ

/-- Source `SpectralWarp::new` (src/dsp.rs lines 324-331). -/
noncomputable def SpectralWarp.new (a_size b_size : ℕ) : SpectralWarp :=
  ⟨0, AllpassDelay.new a_size, AllpassDelay.new b_size, 0⟩

/-- Source `SpectralWarp::process` (src/dsp.rs lines 333-378). -/
noncomputable def SpectralWarp.process (s : SpectralWarp) (input : ℝ) (control : WarpControl) :
    ℝ × SpectralWarp :=
  let color_damping_bias : ℝ :=
    match control.color with
    | .Neutral => 0
    | .DarkDrag => 0.18
    | .BrightShear => -0.15
  let damping := clampR (control.air_damping * (0.3 + control.tension * 0.7) + color_damping_bias)
    0 0.98
  let low_coeff := 0.012 + (1 - damping) * 0.12
  let low_state := s.low_state + (input - s.low_state) * low_coeff
  let high := input - low_state
  let compensation : ℝ :=
    if control.air_compensation then
      let color_boost : ℝ :=
        match control.color with
        | .Neutral => 1
        | .DarkDrag => 0.75
        | .BrightShear => 1.2
      damping * 0.72 * color_boost
    else 0
  let tone := low_state + high * (1 - damping * 0.9 + compensation)
  let g1 := clampR (0.12 + control.diffusion *
    (0.45 + control.elasticity * 0.22 + control.warp_motion * 0.24)) 0.05 0.9
  let g2 := clampR (0.1 + control.diffusion *
    (0.38 + control.tension * 0.3 + control.warp_motion * 0.2)) 0.05 0.9
  let pa := s.allpass_a.process tone g1
  let pb := s.allpass_b.process pa.1 g2
  let drift_phase := rustFract (s.drift_phase + control.drift_phase_inc)
  let character_scale : ℝ :=
    match control.character with
    | .Clean => 0.35
    | .Dirty => 1
    | .Crush => 1.2
  let drift := Real.sin (drift_phase * tau) *
    (0.004 + control.tension * 0.02 + control.warp_motion * 0.018) * character_scale
  ⟨pb.1 + high * drift, low_state, pa.2, pb.2, drift_phase⟩

/-- Source struct `SpaceStage` (src/dsp.rs lines 381-387). -/
structure SpaceStage where
  side_delay_a : ShortDelay
  side_delay_b : ShortDelay
  diff_left : AllpassDelay
  diff_right : AllpassDelay

/-- Source `SpaceStage::default` (derived `Default`, src/dsp.rs lines 381-387):
`ShortDelay` defaults to length 23, `AllpassDelay` to length 31. -/
noncomputable def SpaceStage.default : SpaceStage :=
  ⟨ShortDelay.new 23, ShortDelay.new 23, AllpassDelay.new 31, AllpassDelay.new 31⟩

/-- Source `SpaceStage::process` (src/dsp.rs lines 389-424). -/
noncomputable def SpaceStage.process (s : SpaceStage) (left right width diffusion : ℝ)
    (dirty : Bool) : (ℝ × ℝ) × SpaceStage :=
  let mid := (left + right) * 0.5
  let side := (left - right) * 0.5
  let pa := s.side_delay_a.process side
  let pb := s.side_delay_b.process (-side)
  let decorrelated := lerp side ((pa.1 - pb.1) * 0.5) (width * 0.82)
  let spread := 1 + width * 0.78
  let out_l0 := mid + decorrelated * spread
  let out_r0 := mid - decorrelated * spread
  let diffusion_gain := clampR (0.14 + diffusion * 0.56) 0.08 0.8
  let pl := s.diff_left.process out_l0 diffusion_gain
  let pr := s.diff_right.process out_r0 (diffusion_gain * 0.95)
  let blend := 0.1 + diffusion * 0.5
  let out_l1 := lerp out_l0 pl.1 blend
  let out_r1 := lerp out_r0 pr.1 blend
  let out_l := if dirty then out_l1 * 1.015 else out_l1
  let out_r := if dirty then out_r1 * 1.015 else out_r1
  ((out_l, out_r), ⟨pa.2, pb.2, pl.2, pr.2⟩)

/-- Source struct `RenderReport` (src/dsp.rs lines 12-31). -/
structure RenderReport where
  input_left : ℝ
  input_right : ℝ
  elastic_activity : ℝ
  warp_activity : ℝ
  space_activity : ℝ
  feedback_activity : ℝ
  output_left : ℝ
  output_right : ℝ
  tension_activity : ℝ

/-- Source `RenderReport::default` (derived `Default`: all fields zero). -/
noncomputable def RenderReport.zero : RenderReport := ⟨0, 0, 0, 0, 0, 0, 0, 0, 0⟩

/-- Source struct `TensionFieldEngine` (src/dsp.rs lines 34-49). -/
structure TensionFieldEngine where
  sample_rate : ℝ
  clock : TransportClock
  pre_left : PreEmphasis
  pre_right : PreEmphasis
  gesture : GestureEngine
  modulation : ModMatrix
  elastic : ElasticBuffer
  warp_left : SpectralWarp
  warp_right : SpectralWarp
  space : SpaceStage
  feedback_left : ℝ
  feedback_right : ℝ
  input_env : ℝ
  output_gain : ℝ

/-- Source `TensionFieldEngine::new` (src/dsp.rs lines 53-70). -/
noncomputable def TensionFieldEngine.new (sample_rate : ℝ) : TensionFieldEngine :=
  ⟨sample_rate, TransportClock.new sample_rate, ⟨0⟩, ⟨0⟩, GestureEngine.default,
   ModMatrix.default, ElasticBuffer.new sample_rate, SpectralWarp.new 37 73,
   SpectralWarp.new 43 79, SpaceStage.default, 0, 0, 0, 1⟩

/-- Mutable state of the per-block render loop: the engine, the per-sample
transport (whose `song_pos_beats` is cleared after the first sample), and the
nine peak accumulators of src/dsp.rs lines 85-93. -/
structure RenderState where
  engine : TensionFieldEngine
  transport_for_sample : TransportState
  input_left_peak : ℝ
  input_right_peak : ℝ
  elastic_peak : ℝ
  warp_peak : ℝ
  space_peak : ℝ
  feedback_peak : ℝ
  output_left_peak : ℝ
  output_right_peak : ℝ
  tension_peak : ℝ

/-- One iteration of the render loop body (src/dsp.rs lines 96-215) at inputs
`(in_l, in_r)`: returns the written output pair and the updated loop state. -/
noncomputable def render_sample (settings : TensionFieldSettings) (st : RenderState)
    (in_l in_r : ℝ) : (ℝ × ℝ) × RenderState :=
  let e := st.engine
  let input_left_peak := max st.input_left_peak |in_l|
  let input_right_peak := max st.input_right_peak |in_r|
  let input_abs := max |in_l| |in_r|
  let input_env := e.input_env + (input_abs - e.input_env) * (0.01 + settings.ducking * 0.08)
  let clock_pair := e.clock.tick st.transport_for_sample
  let clock := clock_pair.1
  let transport_for_sample : TransportState :=
    { st.transport_for_sample with song_pos_beats := none }
  let mod_pair := e.modulation.next settings.modulation clock input_env e.sample_rate
  let mod_values := mod_pair.1
  let tension := clampR (settings.tension + mod_values 0) 0 1
  let pull_direction := clampR (settings.pull_direction + mod_values 1) (-1) 1
  let grain := clampR (settings.grain_continuity + mod_values 2) 0 1
  let width := clampR (settings.width + mod_values 3) 0 1
  let warp_motion := clampR (settings.warp_motion + mod_values 4) 0 1
  let feedback := clampR (settings.feedback + mod_values 5) 0 0.7
  let gesture_pair := e.gesture.next
    ⟨tension, settings.time_mode, settings.pull_rate_hz, settings.pull_division,
     settings.swing, settings.pull_shape, settings.pull_trigger, settings.pull_latch,
     settings.pull_quantize, settings.rebound, pull_direction, settings.elasticity⟩
    e.sample_rate clock
  let gesture := gesture_pair.1
  let tension_peak := max st.tension_peak gesture.tension_drive
  let duck_gain := 1 - settings.ducking * clampR input_env 0 1 * 0.85
  let feedback_l := e.feedback_left * feedback * duck_gain
  let feedback_r := e.feedback_right * feedback * duck_gain
  let feedback_peak := max st.feedback_peak (max |feedback_l| |feedback_r|)
  let pre_l_pair := e.pre_left.process (in_l + feedback_l) gesture.tension_drive grain
  let pre_r_pair := e.pre_right.process (in_r + feedback_r) gesture.tension_drive grain
  let pre_l := pre_l_pair.1
  let pre_r := pre_r_pair.1
  let character_dirty := settings.character ≠ CharacterMode.Clean
  let elastic_pair := e.elastic.process pre_l pre_r
    ⟨gesture.delay_samples, gesture.velocity, settings.pitch_coupling, grain,
     settings.elasticity, character_dirty⟩
  let elastic_l := elastic_pair.1.1
  let elastic_r := elastic_pair.1.2
  let elastic_peak := max st.elastic_peak (max |elastic_l - pre_l| |elastic_r - pre_r|)
  let warp_control : WarpControl :=
    ⟨gesture.tension_drive, settings.diffusion, settings.elasticity, settings.air_damping,
     settings.air_compensation, gesture.drift_phase_inc, warp_motion, settings.warp_color,
     settings.character⟩
  let warped_l_pair := e.warp_left.process elastic_l warp_control
  let warped_r_pair := e.warp_right.process elastic_r warp_control
  let warped_l := warped_l_pair.1
  let warped_r := warped_r_pair.1
  let warp_peak := max st.warp_peak (max |warped_l - elastic_l| |warped_r - elastic_r|)
  let space_pair := e.space.process warped_l warped_r width settings.diffusion character_dirty
  let space_l := space_pair.1.1
  let space_r := space_pair.1.2
  let space_peak := max st.space_peak (max |space_l - warped_l| |space_r - warped_r|)
  let output_gain := e.output_gain + (db_to_gain settings.output_trim_db - e.output_gain) * 0.002
  let out_l0 := space_l * output_gain
  let out_r0 := space_r * output_gain
  let out_l1 := if settings.character = CharacterMode.Crush then crush out_l0 else out_l0
  let out_r1 := if settings.character = CharacterMode.Crush then crush out_r0 else out_r0
  let out_l := soft_clip out_l1
  let out_r := soft_clip out_r1
  let output_left_peak := max st.output_left_peak |out_l|
  let output_right_peak := max st.output_right_peak |out_r|
  ((out_l, out_r),
   ⟨⟨e.sample_rate, clock_pair.2, pre_l_pair.2, pre_r_pair.2, gesture_pair.2, mod_pair.2,
     elastic_pair.2, warped_l_pair.2, warped_r_pair.2, space_pair.2, out_l, out_r,
     input_env, output_gain⟩,
    transport_for_sample, input_left_peak, input_right_peak, elastic_peak, warp_peak,
    space_peak, feedback_peak, output_left_peak, output_right_peak, tension_peak⟩)

/-- The render loop (src/dsp.rs lines 96-215) over the zipped channel prefix:
threads the loop state and collects the written sample pairs in order. -/
noncomputable def render_loop (settings : TensionFieldSettings) :
    RenderState → List (ℝ × ℝ) → RenderState × List (ℝ × ℝ)
  | st, [] => (st, [])
  | st, p :: rest =>
      let step := render_sample settings st p.1 p.2
      let tail := render_loop settings step.2 rest
      (tail.1, step.1 :: tail.2)

/-- Result of `TensionFieldEngine::render`: the metering report, the two
buffers after the in-place writes, and the updated engine. -/
structure RenderResult where
  report : RenderReport
  out_left : List ℝ
  out_right : List ℝ
  engine : TensionFieldEngine

/-- Source `TensionFieldEngine::render` (src/dsp.rs lines 73-228): processes
`min (left.length) (right.length)` frames in place and produces a metering
report; zero frames is a no-op returning the default report. -/
noncomputable def render (e : TensionFieldEngine) (settings : TensionFieldSettings)
    (left right : List ℝ) (transport : TransportState) : RenderResult :=
  let frames := min left.length right.length
  if frames = 0 then ⟨RenderReport.zero, left, right, e⟩
  else
    let st0 : RenderState := ⟨e, transport, 0, 0, 0, 0, 0, 0, 0, 0, 0⟩
    let result := render_loop settings st0 (left.zip right)
    let stF := result.1
    let outs := result.2
    ⟨⟨meter_norm stF.input_left_peak, meter_norm stF.input_right_peak,
      meter_norm stF.elastic_peak, meter_norm stF.warp_peak, meter_norm stF.space_peak,
      meter_norm stF.feedback_peak, meter_norm stF.output_left_peak,
      meter_norm stF.output_right_peak, clampR stF.tension_peak 0 1⟩,
     outs.map Prod.fst ++ left.drop frames,
     outs.map Prod.snd ++ right.drop frames,
     stF.engine⟩

/-- Example settings values used to instantiate universally quantified
theorems at concrete inputs. -/
noncomputable def exampleModSource : ModSourceSettings :=
  ⟨.Sine, .FreeHz, 0.5, .Div1_4, 1⟩

/-- Example modulation settings with the matrix disabled. -/
noncomputable def exampleModSettings : ModSettings :=
  ⟨false, exampleModSource, exampleModSource, fun _ _ => 0⟩

/-- Example engine settings snapshot. -/
noncomputable def exampleSettings : TensionFieldSettings :=
  ⟨0.5, 0, .FreeHz, 0.25, .Div1_4, 0, .Linear, false, false, .None, 0.5, 0, 0, 0.5, 0.5, 0,
   .Neutral, 0, 0.5, 0.5, 0.5, false, .Clean, 0, 0, 0, 0, exampleModSettings⟩

lemma clampR_mem (x lo hi : ℝ) (h : lo ≤ hi) : lo ≤ clampR x lo hi ∧ clampR x lo hi ≤ hi := by
  unfold clampR
  exact ⟨le_min (le_max_right x lo) h, min_le_right _ _⟩

lemma clampR_eq_self (x lo hi : ℝ) (h0 : lo ≤ x) (h1 : x ≤ hi) : clampR x lo hi = x := by
  unfold clampR
  rw [max_eq_left h0, min_eq_left h1]

lemma rustFract_mem (x : ℝ) (hx : 0 ≤ x) : 0 ≤ rustFract x ∧ rustFract x < 1 := by
  unfold rustFract rustTrunc
  rw [if_neg (not_lt.mpr hx)]
  constructor
  · exact sub_nonneg.mpr (Int.floor_le x)
  · have := Int.lt_floor_add_one x
    linarith

/-- Claim C4: for every delta `d` and every length `L > 0`, `wrap_delta d L` is
congruent to `d` modulo `L` and lies within `[-L/2, L/2]`; in particular
`wrap_delta 70 100 = -30` and `wrap_delta (-70) 100 = 30`. -/
theorem c4_wrap_delta_short_path :
    (∀ d L : ℝ, 0 < L →
      (∃ k : ℤ, wrap_delta d L = d - k * L) ∧
      -(L / 2) ≤ wrap_delta d L ∧ wrap_delta d L ≤ L / 2) ∧
    wrap_delta 70 100 = -30 ∧ wrap_delta (-70) 100 = 30 := by
  refine ⟨?_, ?_, ?_⟩
  · intro d L hL
    unfold wrap_delta
    split_ifs with h1 h2
    · have hc1 : (d - L * 0.5) / L ≤ (⌈(d - L * 0.5) / L⌉ : ℝ) := Int.le_ceil _
      have hc2 : ((⌈(d - L * 0.5) / L⌉ : ℤ) : ℝ) < (d - L * 0.5) / L + 1 :=
        Int.ceil_lt_add_one _
      have hmul : (d - L * 0.5) / L * L = d - L * 0.5 := div_mul_cancel₀ _ (ne_of_gt hL)
      have hm1 := mul_le_mul_of_nonneg_right hc1 hL.le
      have hm2 := mul_lt_mul_of_pos_right hc2 hL
      rw [hmul] at hm1
      refine ⟨⟨⌈(d - L * 0.5) / L⌉, by ring⟩, ?_, ?_⟩
      · nlinarith
      · nlinarith
    · have hc1 : (-(L * 0.5) - d) / L ≤ ((⌈(-(L * 0.5) - d) / L⌉ : ℤ) : ℝ) := Int.le_ceil _
      have hc2 : ((⌈(-(L * 0.5) - d) / L⌉ : ℤ) : ℝ) < (-(L * 0.5) - d) / L + 1 :=
        Int.ceil_lt_add_one _
      have hmul : (-(L * 0.5) - d) / L * L = -(L * 0.5) - d := div_mul_cancel₀ _ (ne_of_gt hL)
      have hm1 := mul_le_mul_of_nonneg_right hc1 hL.le
      have hm2 := mul_lt_mul_of_pos_right hc2 hL
      rw [hmul] at hm1
      refine ⟨⟨-⌈(-(L * 0.5) - d) / L⌉, by push_cast; ring⟩, ?_, ?_⟩
      · nlinarith
      · nlinarith
    · push_neg at h1 h2
      exact ⟨⟨0, by ring⟩, by linarith, by linarith⟩
  · unfold wrap_delta
    rw [if_pos (by norm_num : (100 : ℝ) * 0.5 < 70)]
    rw [show ((70 : ℝ) - 100 * 0.5) / 100 = 1 / 5 by norm_num]
    rw [show ⌈(1 / 5 : ℝ)⌉ = (1 : ℤ) by rw [Int.ceil_eq_iff]; norm_num]
    norm_num
  · unfold wrap_delta
    rw [if_neg (by norm_num : ¬((100 : ℝ) * 0.5 < -70))]
    rw [if_pos (by norm_num : (-70 : ℝ) < -(100 * 0.5))]
    rw [show (-((100 : ℝ) * 0.5) - -70) / 100 = 1 / 5 by norm_num]
    rw [show ⌈(1 / 5 : ℝ)⌉ = (1 : ℤ) by rw [Int.ceil_eq_iff]; norm_num]
    norm_num

/-- Claim C4 witness: the bounds at the concrete input `d = 70`, `L = 100`. -/
theorem c4_wrap_delta_short_path_witness :
    (0 : ℝ) < 100 ∧ -((100 : ℝ) / 2) ≤ wrap_delta 70 100 ∧ wrap_delta 70 100 ≤ 100 / 2 :=
  ⟨by norm_num, (c4_wrap_delta_short_path.1 70 100 (by norm_num)).2.1,
   (c4_wrap_delta_short_path.1 70 100 (by norm_num)).2.2⟩

/-- Claim C6: for swing in `[0,1]` and phase in `[0,1]` the swing-warp output
stays in `[0,1]`; the split point equals `clamp (0.5 + swing*0.24) 0.1 0.9`,
phases below the split map linearly onto `[0, 0.5)` and phases at or above
the split map linearly onto `[0.5, 1)`. -/
theorem c6_apply_swing_bounds (swing phase : ℝ) (hs0 : 0 ≤ swing) (hs1 : swing ≤ 1)
    (hp0 : 0 ≤ phase) (_hp1 : phase ≤ 1) :
    (0 ≤ apply_swing phase swing ∧ apply_swing phase swing ≤ 1) ∧
    clampR (0.5 + swing * 0.24) 0.1 0.9 = 0.5 + swing * 0.24 ∧
    (rustFract phase < 0.5 + swing * 0.24 →
      apply_swing phase swing = rustFract phase / (0.5 + swing * 0.24) * 0.5 ∧
      0 ≤ apply_swing phase swing ∧ apply_swing phase swing < 0.5) ∧
    (0.5 + swing * 0.24 ≤ rustFract phase →
      apply_swing phase swing =
        0.5 + (rustFract phase - (0.5 + swing * 0.24)) / (1 - (0.5 + swing * 0.24)) * 0.5 ∧
      0.5 ≤ apply_swing phase swing ∧ apply_swing phase swing < 1) := by
  have hsw : clampR swing 0 1 = swing := clampR_eq_self swing 0 1 hs0 hs1
  have hsplit : clampR (0.5 + swing * 0.24) 0.1 0.9 = 0.5 + swing * 0.24 :=
    clampR_eq_self _ _ _ (by linarith) (by linarith)
  obtain ⟨hf0, hf1⟩ := rustFract_mem phase hp0
  have hsplit0 : (0.5 : ℝ) ≤ 0.5 + swing * 0.24 := by linarith
  have hsplit1 : (0.5 : ℝ) + swing * 0.24 ≤ 0.74 := by linarith
  have happly : apply_swing phase swing =
      if rustFract phase < 0.5 + swing * 0.24 then
        rustFract phase / (0.5 + swing * 0.24) * 0.5
      else 0.5 + (rustFract phase - (0.5 + swing * 0.24)) / (1 - (0.5 + swing * 0.24)) * 0.5 := by
    unfold apply_swing
    rw [hsw, hsplit]
  by_cases hb : rustFract phase < 0.5 + swing * 0.24
  · rw [happly, if_pos hb]
    have hq : rustFract phase / (0.5 + swing * 0.24) < 1 :=
      (div_lt_one (by linarith)).mpr hb
    have hq0 : 0 ≤ rustFract phase / (0.5 + swing * 0.24) :=
      div_nonneg hf0 (by linarith)
    refine ⟨⟨by linarith, by linarith⟩, hsplit, fun _ => ⟨rfl, by linarith, by linarith⟩, ?_⟩
    intro hc
    exact absurd hc (not_le.mpr hb)
  · rw [happly, if_neg hb]
    push_neg at hb
    have hd : (0 : ℝ) < 1 - (0.5 + swing * 0.24) := by linarith
    have hq0 : 0 ≤ (rustFract phase - (0.5 + swing * 0.24)) / (1 - (0.5 + swing * 0.24)) :=
      div_nonneg (by linarith) hd.le
    have hq1 : (rustFract phase - (0.5 + swing * 0.24)) / (1 - (0.5 + swing * 0.24)) < 1 :=
      (div_lt_one hd).mpr (by linarith)
    refine ⟨⟨by linarith, by linarith⟩, hsplit, ?_, fun _ => ⟨rfl, by linarith, by linarith⟩⟩
    intro hc
    exact absurd hb (not_le.mpr hc)

/-- Claim C6 witness: the bounds at swing `0`, phase `1/2`. -/
theorem c6_apply_swing_bounds_witness :
    ((0 : ℝ) ≤ 0 ∧ (0 : ℝ) ≤ 1 ∧ (0 : ℝ) ≤ 1 / 2 ∧ (1 / 2 : ℝ) ≤ 1) ∧
    0 ≤ apply_swing (1 / 2) 0 ∧ apply_swing (1 / 2) 0 ≤ 1 :=
  ⟨⟨le_refl 0, by norm_num, by norm_num, by norm_num⟩,
   (c6_apply_swing_bounds 0 (1 / 2) (le_refl 0) (by norm_num) (by norm_num) (by norm_num)).1⟩

lemma abs_sin_le_one (x : ℝ) : |Real.sin x| ≤ 1 :=
  abs_le.mpr ⟨Real.neg_one_le_sin x, Real.sin_le_one x⟩

/-- Claim C7 counterexample: at phase `-1/2` the Linear shape evaluates to
`-2`, outside `[-1.01, 1.01]` (Rust `fract` keeps the sign of its argument,
so negative phases escape the sweep range). -/
theorem c7_shape_range_counterexample :
    ¬(-1.01 ≤ evaluate_shape PullShape.Linear (-(1 / 2) : ℝ) ∧
      evaluate_shape PullShape.Linear (-(1 / 2) : ℝ) ≤ 1.01) := by
  have h : evaluate_shape PullShape.Linear (-(1 / 2) : ℝ) = -2 := by
    unfold evaluate_shape rustFract rustTrunc
    rw [if_pos (by norm_num : (-(1 / 2) : ℝ) < 0)]
    rw [show ⌈(-(1 / 2) : ℝ)⌉ = (0 : ℤ) by rw [Int.ceil_eq_iff]; norm_num]
    norm_num
  rw [h]
  norm_num

/-- Claim C7 (amended to nonnegative phases): for each of the five gesture
shapes and every phase `≥ 0`, the shape evaluation lies within
`[-1.01, 1.01]`. -/
theorem c7_shape_range (shape : PullShape) (phase : ℝ) (hp : 0 ≤ phase) :
    -1.01 ≤ evaluate_shape shape phase ∧ evaluate_shape shape phase ≤ 1.01 := by
  obtain ⟨hf0, hf1⟩ := rustFract_mem phase hp
  cases shape
  case Linear =>
    dsimp only [evaluate_shape]
    constructor <;> nlinarith
  case Rubber =>
    dsimp only [evaluate_shape]
    have hs : |Real.sin (rustFract phase * tau)| ≤ 1 := abs_sin_le_one _
    have h1 : |Real.sin (rustFract phase * tau)| ^ (0.6 : ℝ) ≤ 1 :=
      Real.rpow_le_one (abs_nonneg _) hs (by norm_num)
    have h0 : 0 ≤ |Real.sin (rustFract phase * tau)| ^ (0.6 : ℝ) :=
      Real.rpow_nonneg (abs_nonneg _) _
    unfold rustSignum
    split_ifs <;> constructor <;> nlinarith
  case Ratchet =>
    dsimp only [evaluate_shape]
    have := clampR_mem
      ((((⌊rustFract phase * 6⌋ : ℝ) / (6 - 1)) * 2 - 1) * 0.86 +
        Real.sin (rustFract phase * tau) * 0.18) (-1) 1 (by norm_num)
    constructor <;> nlinarith [this.1, this.2]
  case Wave =>
    dsimp only [evaluate_shape]
    have h0 := Real.neg_one_le_sin (rustFract phase * tau)
    have h1 := Real.sin_le_one (rustFract phase * tau)
    constructor <;> nlinarith
  case Pulse =>
    dsimp only [evaluate_shape]
    split_ifs <;> norm_num

/-- Claim C7 witness: the amended bound at shape Linear, phase `0`. -/
theorem c7_shape_range_witness :
    (0 : ℝ) ≤ 0 ∧ -1.01 ≤ evaluate_shape PullShape.Linear 0 ∧
      evaluate_shape PullShape.Linear 0 ≤ 1.01 :=
  ⟨le_refl 0, c7_shape_range PullShape.Linear 0 (le_refl 0)⟩

/-- Claim C5: with `run = false`, `ModMatrix.next` returns the previous six
smoothed destination values each multiplied exactly by `0.98`, and leaves both
source states (phases, walk values, envelope values) unchanged. -/
theorem c5_disabled_matrix_decays (m : ModMatrix) (settings : ModSettings)
    (clock : ClockFrame) (env sr : ℝ) (h : settings.run = false) :
    (m.next settings clock env sr).1 = (fun i => m.smoothed i * 0.98) ∧
    (m.next settings clock env sr).2 =
      { m with smoothed := fun i => m.smoothed i * 0.98 } ∧
    (m.next settings clock env sr).2.source_a = m.source_a ∧
    (m.next settings clock env sr).2.source_b = m.source_b := by
  unfold ModMatrix.next
  rw [h]
  exact ⟨rfl, rfl, rfl, rfl⟩

/-- Claim C5 witness: the decay equation at a concrete disabled settings
value and the default matrix state. -/
theorem c5_disabled_matrix_decays_witness :
    exampleModSettings.run = false ∧
    (ModMatrix.default.next exampleModSettings ⟨0, true⟩ 0 48000).1 =
      (fun i => ModMatrix.default.smoothed i * 0.98) :=
  ⟨rfl, (c5_disabled_matrix_decays ModMatrix.default exampleModSettings ⟨0, true⟩ 0 48000
    rfl).1⟩

/-- Claim C3 counterexample: when the host supplies the same song position to
both calls, two consecutive playing ticks at the same tempo return equal beat
positions, so the second is not strictly greater. -/
theorem c3_clock_monotone_counterexample :
    ¬(((TransportClock.new 1).tick ⟨120, true, some 0⟩).1.beat_position <
      ((((TransportClock.new 1).tick ⟨120, true, some 0⟩).2).tick
        ⟨120, true, some 0⟩).1.beat_position) := by
  unfold TransportClock.tick TransportClock.new
  norm_num

/-- Claim C3 (amended): for every transport clock (with the sample rate at
least 1, as construction guarantees) and consecutive tick calls that are both
playing with the same tempo, where the second call supplies no song position,
the second returned beat position is strictly greater than the first; each
call returns the beat position before the internal fallback advances, and the
fallback then advances by the per-sample beat increment. -/
theorem c3_clock_monotone (c : TransportClock) (t1 t2 : TransportState)
    (hsr : 1 ≤ c.sample_rate) (h1 : t1.is_playing = true) (_h2 : t2.is_playing = true)
    (_htempo : t1.tempo_bpm = t2.tempo_bpm) (hsp : t2.song_pos_beats = none) :
    (c.tick t1).1.beat_position = t1.song_pos_beats.getD c.fallback_beat_position ∧
    (c.tick t1).2.fallback_beat_position =
      (c.tick t1).1.beat_position + clampR t1.tempo_bpm 20 300 / (c.sample_rate * 60) ∧
    (c.tick t1).1.beat_position < (((c.tick t1).2).tick t2).1.beat_position := by
  unfold TransportClock.tick
  rw [h1, hsp]
  refine ⟨rfl, by simp, ?_⟩
  have hclamp := clampR_mem t1.tempo_bpm 20 300 (by norm_num)
  have hpos : 0 < clampR t1.tempo_bpm 20 300 / (c.sample_rate * 60) :=
    div_pos (by linarith [hclamp.1]) (by nlinarith)
  simp only [Option.getD_none, Option.getD_some]
  simp
  linarith

/-- Claim C3 witness: the amended statement at a concrete clock and two
concrete transports without song position. -/
theorem c3_clock_monotone_witness :
    (1 : ℝ) ≤ (⟨1, 0⟩ : TransportClock).sample_rate ∧
    ((⟨1, 0⟩ : TransportClock).tick ⟨120, true, none⟩).1.beat_position <
      ((((⟨1, 0⟩ : TransportClock).tick ⟨120, true, none⟩).2).tick
        ⟨120, true, none⟩).1.beat_position :=
  ⟨le_refl 1, (c3_clock_monotone ⟨1, 0⟩ ⟨120, true, none⟩ ⟨120, true, none⟩ (le_refl 1)
    rfl rfl rfl rfl).2.2⟩

lemma wrap_position_bounds (p L : ℝ) (hL : 0 < L) :
    0 ≤ wrap_position p L ∧ wrap_position p L < L := by
  unfold wrap_position
  split_ifs with h1 h2
  · have hc1 : -p / L ≤ ((⌈-p / L⌉ : ℤ) : ℝ) := Int.le_ceil _
    have hc2 : ((⌈-p / L⌉ : ℤ) : ℝ) < -p / L + 1 := Int.ceil_lt_add_one _
    have hmul : -p / L * L = -p := div_mul_cancel₀ _ (ne_of_gt hL)
    have hm1 := mul_le_mul_of_nonneg_right hc1 hL.le
    have hm2 := mul_lt_mul_of_pos_right hc2 hL
    rw [hmul] at hm1
    constructor <;> nlinarith
  · have hf1 : ((⌊p / L⌋ : ℤ) : ℝ) ≤ p / L := Int.floor_le _
    have hf2 : p / L < ((⌊p / L⌋ : ℤ) : ℝ) + 1 := Int.lt_floor_add_one _
    have hmul : p / L * L = p := div_mul_cancel₀ _ (ne_of_gt hL)
    have hm1 := mul_le_mul_of_nonneg_right hf1 hL.le
    have hm2 := mul_lt_mul_of_pos_right hf2 hL
    rw [hmul] at hm1
    constructor <;> nlinarith
  · push_neg at h1 h2
    exact ⟨h1, h2⟩

lemma elastic_new_wf (sample_rate : ℝ) (h : 0 < sample_rate) :
    (ElasticBuffer.new sample_rate).wf := by
  have hc : (0 : ℤ) ≤ ⌈sample_rate * 2.75⌉ := Int.ceil_nonneg (by positivity)
  have hcast : (((⌈sample_rate * 2.75⌉).toNat : ℕ) : ℝ) = ((⌈sample_rate * 2.75⌉ : ℤ) : ℝ) := by
    exact_mod_cast congrArg (fun z : ℤ => (z : ℝ)) (Int.toNat_of_nonneg hc)
  have hle : sample_rate * 2.75 ≤ (((⌈sample_rate * 2.75⌉).toNat : ℕ) : ℝ) := by
    rw [hcast]
    exact Int.le_ceil _
  unfold ElasticBuffer.new ElasticBuffer.wf
  refine ⟨rfl, ?_, ?_, ?_, ?_⟩
  · simp only [List.length_replicate]
    omega
  · simp only [List.length_replicate]
    omega
  · simp only [List.length_replicate]
    push_cast
    nlinarith
  · simp only [List.length_replicate]
    push_cast
    nlinarith

lemma elastic_process_wf (s : ElasticBuffer) (x y : ℝ) (c : ElasticControl) (h : s.wf) :
    ((s.process x y c).2).wf := by
  obtain ⟨hlr, hpos, hwi, hr0, hr1⟩ := h
  have hleft : ((s.process x y c).2).left = s.left.set s.write_index x := rfl
  have hright : ((s.process x y c).2).right = s.right.set s.write_index y := rfl
  have hwidx : ((s.process x y c).2).write_index
      = (s.write_index + 1) % (s.left.set s.write_index x).length := rfl
  have hread : ∃ v, ((s.process x y c).2).read_position
      = wrap_position v ((s.left.length : ℕ) : ℝ) := ⟨_, rfl⟩
  obtain ⟨v, hv⟩ := hread
  have hLpos : (0 : ℝ) < ((s.left.length : ℕ) : ℝ) := by exact_mod_cast hpos
  have hb := wrap_position_bounds v _ hLpos
  refine ⟨?_, ?_, ?_, ?_, ?_⟩
  · rw [hleft, hright]
    simp [List.length_set, hlr]
  · rw [hleft]
    simpa [List.length_set] using hpos
  · rw [hwidx, hleft]
    simp only [List.length_set]
    exact Nat.mod_lt _ hpos
  · rw [hv]
    exact hb.1
  · rw [hv, hleft]
    simpa [List.length_set] using hb.2

lemma ringIndex_lt_of_pos (i len : ℤ) (h : 0 < len) : ((ringIndex i len : ℕ) : ℤ) < len := by
  unfold ringIndex
  rw [Int.toNat_of_nonneg (Int.emod_nonneg i (ne_of_gt h))]
  exact Int.emod_lt_of_pos i h

/-- Claim C2: the elastic buffer ring indices stay in range: construction at a
positive sample rate establishes the invariant, every `process` call preserves
it, and the four wrapped taps used by `read_cubic` (floor − 1 through
floor + 2 of the fractional position) are always in bounds, including when
`⌊position⌋ - 1` is negative. -/
theorem c2_elastic_indices_in_range :
    (∀ sample_rate : ℝ, 0 < sample_rate → (ElasticBuffer.new sample_rate).wf) ∧
    (∀ (s : ElasticBuffer) (x y : ℝ) (c : ElasticControl), s.wf → ((s.process x y c).2).wf) ∧
    (∀ (buffer : List ℝ) (position : ℝ), 0 < buffer.length →
      ringIndex (⌊position⌋ - 1) buffer.length < buffer.length ∧
      ringIndex ⌊position⌋ buffer.length < buffer.length ∧
      ringIndex (⌊position⌋ + 1) buffer.length < buffer.length ∧
      ringIndex (⌊position⌋ + 2) buffer.length < buffer.length) := by
  refine ⟨elastic_new_wf, elastic_process_wf, ?_⟩
  intro buffer position hpos
  have hlen : (0 : ℤ) < (buffer.length : ℤ) := by exact_mod_cast hpos
  refine ⟨?_, ?_, ?_, ?_⟩ <;>
    exact_mod_cast ringIndex_lt_of_pos _ _ hlen

/-- Claim C2 witness: a concrete construction, one process step, and the taps
of a fractional position whose floor minus one is negative. -/
theorem c2_elastic_indices_in_range_witness :
    ((0 : ℝ) < 1 ∧ (ElasticBuffer.new 1).wf) ∧
    (((ElasticBuffer.new 1).process 0 0 ⟨100, 0, 0, 0, 0, false⟩).2).wf ∧
    (0 < ([0, 0, 0] : List ℝ).length ∧
      ringIndex (⌊(0.5 : ℝ)⌋ - 1) (([0, 0, 0] : List ℝ).length) <
        ([0, 0, 0] : List ℝ).length) :=
  ⟨⟨by norm_num, c2_elastic_indices_in_range.1 1 (by norm_num)⟩,
   c2_elastic_indices_in_range.2.1 (ElasticBuffer.new 1) 0 0 ⟨100, 0, 0, 0, 0, false⟩
     (c2_elastic_indices_in_range.1 1 (by norm_num)),
   ⟨by norm_num, (c2_elastic_indices_in_range.2.2 [0, 0, 0] 0.5 (by norm_num)).1⟩⟩

/-- Claim C8: rendering with a zero-length left or right buffer is a
successful no-op: the default (all-zero) report is returned, neither buffer is
written, and the engine state is unchanged. -/
theorem c8_empty_buffer_noop (e : TensionFieldEngine) (settings : TensionFieldSettings)
    (left right : List ℝ) (transport : TransportState)
    (h : left.length = 0 ∨ right.length = 0) :
    render e settings left right transport = ⟨RenderReport.zero, left, right, e⟩ := by
  have hf : min left.length right.length = 0 := by
    rcases h with h | h <;> simp [h]
  unfold render
  rw [if_pos hf]

/-- Claim C8 witness: the no-op at a concrete engine, settings, and an empty
left buffer. -/
theorem c8_empty_buffer_noop_witness :
    ((List.length ([] : List ℝ) = 0 ∨ ([1] : List ℝ).length = 0)) ∧
    render (TensionFieldEngine.new 1) exampleSettings [] [1] ⟨120, true, none⟩ =
      ⟨RenderReport.zero, [], [1], TensionFieldEngine.new 1⟩ :=
  ⟨Or.inl rfl,
   c8_empty_buffer_noop (TensionFieldEngine.new 1) exampleSettings [] [1] ⟨120, true, none⟩
     (Or.inl rfl)⟩

/-- Claim C10: render is deterministic — equal engine states, settings,
buffer contents, and transport states produce equal reports, equal output
buffers, and equal resulting engine states; the only state consumed is the
explicit engine state (including its PRNG seeds), with no external source of
nondeterminism in the model. -/
theorem c10_render_deterministic (e1 e2 : TensionFieldEngine)
    (s1 s2 : TensionFieldSettings) (l1 l2 r1 r2 : List ℝ) (t1 t2 : TransportState)
    (he : e1 = e2) (hs : s1 = s2) (hl : l1 = l2) (hr : r1 = r2) (ht : t1 = t2) :
    render e1 s1 l1 r1 t1 = render e2 s2 l2 r2 t2 := by
  subst he hs hl hr ht
  rfl

/-- Claim C10 witness: determinism at a concrete engine, settings, buffers,
and transport. -/
theorem c10_render_deterministic_witness :
    TensionFieldEngine.new 1 = TensionFieldEngine.new 1 ∧
    render (TensionFieldEngine.new 1) exampleSettings [0] [0] ⟨120, false, none⟩ =
      render (TensionFieldEngine.new 1) exampleSettings [0] [0] ⟨120, false, none⟩ :=
  ⟨rfl, c10_render_deterministic (TensionFieldEngine.new 1) (TensionFieldEngine.new 1)
    exampleSettings exampleSettings [0] [0] [0] [0] ⟨120, false, none⟩ ⟨120, false, none⟩
    rfl rfl rfl rfl rfl⟩

lemma render_loop_nil (settings : TensionFieldSettings) (st : RenderState) :
    render_loop settings st [] = (st, []) := rfl

lemma render_loop_cons (settings : TensionFieldSettings) (st : RenderState) (p : ℝ × ℝ)
    (rest : List (ℝ × ℝ)) :
    render_loop settings st (p :: rest) =
      ((render_loop settings (render_sample settings st p.1 p.2).2 rest).1,
       (render_sample settings st p.1 p.2).1 ::
         (render_loop settings (render_sample settings st p.1 p.2).2 rest).2) := rfl

lemma render_loop_length (settings : TensionFieldSettings) (ps : List (ℝ × ℝ)) :
    ∀ st : RenderState, ((render_loop settings st ps).2).length = ps.length := by
  induction ps with
  | nil => intro st; rfl
  | cons p rest ih =>
      intro st
      rw [render_loop_cons]
      simp only [List.length_cons]
      rw [ih]

lemma render_sample_fst (settings : TensionFieldSettings) (st : RenderState) (a b : ℝ) :
    ∃ y z, (render_sample settings st a b).1 = (soft_clip y, soft_clip z) :=
  ⟨_, _, rfl⟩

lemma render_loop_mem_soft_clip (settings : TensionFieldSettings) (ps : List (ℝ × ℝ)) :
    ∀ (st : RenderState) (q : ℝ × ℝ), q ∈ (render_loop settings st ps).2 →
      (∃ y, q.1 = soft_clip y) ∧ ∃ z, q.2 = soft_clip z := by
  induction ps with
  | nil =>
      intro st q hq
      rw [render_loop_nil] at hq
      simp at hq
  | cons p rest ih =>
      intro st q hq
      rw [render_loop_cons] at hq
      simp only [List.mem_cons] at hq
      rcases hq with hq | hq
      · obtain ⟨y, z, hyz⟩ := render_sample_fst settings st p.1 p.2
        exact ⟨⟨y, by rw [hq, hyz]⟩, ⟨z, by rw [hq, hyz]⟩⟩
      · exact ih _ _ hq

lemma getD_drop (l : List ℝ) (n j : ℕ) : (l.drop n).getD j 0 = l.getD (n + j) 0 := by
  rw [List.getD_eq_getElem?_getD, List.getD_eq_getElem?_getD, List.getElem?_drop]

/-- Claim C9: `render` modifies only the first `min m n` samples of each
buffer: output lengths equal input lengths and everything from index
`min m n` on is untouched in both buffers. -/
theorem c9_render_frame_effect (e : TensionFieldEngine) (settings : TensionFieldSettings)
    (left right : List ℝ) (transport : TransportState) :
    (render e settings left right transport).out_left.length = left.length ∧
    (render e settings left right transport).out_right.length = right.length ∧
    (render e settings left right transport).out_left.drop (min left.length right.length) =
      left.drop (min left.length right.length) ∧
    (render e settings left right transport).out_right.drop (min left.length right.length) =
      right.drop (min left.length right.length) := by
  by_cases hf : min left.length right.length = 0
  · unfold render
    rw [if_pos hf]
    exact ⟨rfl, rfl, rfl, rfl⟩
  · have houtl : (render e settings left right transport).out_left =
        (render_loop settings ⟨e, transport, 0, 0, 0, 0, 0, 0, 0, 0, 0⟩
          (left.zip right)).2.map Prod.fst ++ left.drop (min left.length right.length) := by
      unfold render
      rw [if_neg hf]
    have houtr : (render e settings left right transport).out_right =
        (render_loop settings ⟨e, transport, 0, 0, 0, 0, 0, 0, 0, 0, 0⟩
          (left.zip right)).2.map Prod.snd ++ right.drop (min left.length right.length) := by
      unfold render
      rw [if_neg hf]
    have hlen : ((render_loop settings ⟨e, transport, 0, 0, 0, 0, 0, 0, 0, 0, 0⟩
        (left.zip right)).2).length = min left.length right.length := by
      rw [render_loop_length]
      rw [List.length_zip]
    have hlenf : ((render_loop settings ⟨e, transport, 0, 0, 0, 0, 0, 0, 0, 0, 0⟩
        (left.zip right)).2.map Prod.fst).length = min left.length right.length := by
      rw [List.length_map, hlen]
    have hlens : ((render_loop settings ⟨e, transport, 0, 0, 0, 0, 0, 0, 0, 0, 0⟩
        (left.zip right)).2.map Prod.snd).length = min left.length right.length := by
      rw [List.length_map, hlen]
    refine ⟨?_, ?_, ?_, ?_⟩
    · rw [houtl, List.length_append, hlenf, List.length_drop]
      omega
    · rw [houtr, List.length_append, hlens, List.length_drop]
      omega
    · rw [houtl]
      rw [← hlenf]
      exact List.drop_left _ _
    · rw [houtr]
      rw [← hlens]
      exact List.drop_left _ _

/-- Claim C9 witness: frame effect at concrete buffers of lengths 1 and 2. -/
theorem c9_render_frame_effect_witness :
    (render (TensionFieldEngine.new 1) exampleSettings [0] [0, 5] ⟨120, true, none⟩).out_right.drop
        (min ([0] : List ℝ).length ([0, 5] : List ℝ).length) =
      ([0, 5] : List ℝ).drop (min ([0] : List ℝ).length ([0, 5] : List ℝ).length) :=
  (c9_render_frame_effect (TensionFieldEngine.new 1) exampleSettings [0] [0, 5]
    ⟨120, true, none⟩).2.2.2

lemma abs_soft_clip_lt (x : ℝ) : |soft_clip x| < 1 / 0.6 := by
  unfold soft_clip
  have hd : (0 : ℝ) < 1 + |x| * 0.6 := by positivity
  rw [abs_div, abs_of_pos hd]
  rw [div_lt_div_iff₀ hd (by norm_num)]
  nlinarith [abs_nonneg x]

/-- Claim C1: `soft_clip x = x / (1 + 0.6 |x|)` with `|soft_clip x| < 1/0.6`,
and every sample a render call writes back (any output index inside the
processed prefix) is the image of `soft_clip`, hence bounded by `1/0.6`;
indices outside the processed prefix keep their previous value. -/
theorem c1_soft_clip_bounded_output :
    (∀ x : ℝ, soft_clip x = x / (1 + 0.6 * |x|) ∧ |soft_clip x| < 1 / 0.6) ∧
    ∀ (e : TensionFieldEngine) (settings : TensionFieldSettings) (left right : List ℝ)
      (transport : TransportState) (i : ℕ),
      ((∃ y, (render e settings left right transport).out_left.getD i 0 = soft_clip y ∧
          |(render e settings left right transport).out_left.getD i 0| < 1 / 0.6) ∨
        (render e settings left right transport).out_left.getD i 0 = left.getD i 0) ∧
      ((∃ z, (render e settings left right transport).out_right.getD i 0 = soft_clip z ∧
          |(render e settings left right transport).out_right.getD i 0| < 1 / 0.6) ∨
        (render e settings left right transport).out_right.getD i 0 = right.getD i 0) := by
  constructor
  · intro x
    refine ⟨?_, abs_soft_clip_lt x⟩
    unfold soft_clip
    rw [mul_comm]
  · intro e settings left right transport i
    by_cases hf : min left.length right.length = 0
    · unfold render
      rw [if_pos hf]
      exact ⟨Or.inr rfl, Or.inr rfl⟩
    · set st0 : RenderState := ⟨e, transport, 0, 0, 0, 0, 0, 0, 0, 0, 0⟩ with hst0
      set outs := (render_loop settings st0 (left.zip right)).2 with houts
      have houtl : (render e settings left right transport).out_left =
          outs.map Prod.fst ++ left.drop (min left.length right.length) := by
        unfold render
        rw [if_neg hf]
      have houtr : (render e settings left right transport).out_right =
          outs.map Prod.snd ++ right.drop (min left.length right.length) := by
        unfold render
        rw [if_neg hf]
      have hlen : outs.length = min left.length right.length := by
        rw [houts, render_loop_length, List.length_zip]
      constructor
      · rcases Nat.lt_or_ge i (min left.length right.length) with hi | hi
        · have hiF : i < (outs.map Prod.fst).length := by
            rw [List.length_map, hlen]
            exact hi
          have hgd : (render e settings left right transport).out_left.getD i 0 =
              (outs.map Prod.fst).getD i 0 := by
            rw [houtl]
            exact List.getD_append _ _ _ _ hiF
          have hget : (outs.map Prod.fst).getD i 0 = (outs.map Prod.fst).get ⟨i, hiF⟩ :=
            List.getD_eq_getElem _ _ hiF
          have hmem : (outs.map Prod.fst).get ⟨i, hiF⟩ ∈ outs.map Prod.fst :=
            List.getElem_mem hiF
          obtain ⟨q, hqmem, hqeq⟩ := List.mem_map.mp hmem
          obtain ⟨⟨y, hy⟩, -⟩ := render_loop_mem_soft_clip settings (left.zip right) st0 q hqmem
          refine Or.inl ⟨y, ?_, ?_⟩
          · rw [hgd, hget, ← hqeq, hy]
          · rw [hgd, hget, ← hqeq, hy]
            exact abs_soft_clip_lt y
        · refine Or.inr ?_
          rw [houtl]
          rw [List.getD_append_right _ _ _ _ (by rw [List.length_map, hlen]; exact hi)]
          rw [List.length_map, hlen, getD_drop, Nat.add_sub_cancel' hi]
      · rcases Nat.lt_or_ge i (min left.length right.length) with hi | hi
        · have hiF : i < (outs.map Prod.snd).length := by
            rw [List.length_map, hlen]
            exact hi
          have hgd : (render e settings left right transport).out_right.getD i 0 =
              (outs.map Prod.snd).getD i 0 := by
            rw [houtr]
            exact List.getD_append _ _ _ _ hiF
          have hget : (outs.map Prod.snd).getD i 0 = (outs.map Prod.snd).get ⟨i, hiF⟩ :=
            List.getD_eq_getElem _ _ hiF
          have hmem : (outs.map Prod.snd).get ⟨i, hiF⟩ ∈ outs.map Prod.snd :=
            List.getElem_mem hiF
          obtain ⟨q, hqmem, hqeq⟩ := List.mem_map.mp hmem
          obtain ⟨-, ⟨z, hz⟩⟩ := render_loop_mem_soft_clip settings (left.zip right) st0 q hqmem
          refine Or.inl ⟨z, ?_, ?_⟩
          · rw [hgd, hget, ← hqeq, hz]
          · rw [hgd, hget, ← hqeq, hz]
            exact abs_soft_clip_lt z
        · refine Or.inr ?_
          rw [houtr]
          rw [List.getD_append_right _ _ _ _ (by rw [List.length_map, hlen]; exact hi)]
          rw [List.length_map, hlen, getD_drop, Nat.add_sub_cancel' hi]

end TensionField
